import Mathlib

/-!
Shallow embedding of src/script.py, the Cisco Umbrella network inventory
and reconciliation pipeline.  We model the functions
list_umbrella_networks, fetch_top_identities, export_to_csv,
compare_and_filter_networks, fetch_snow_data and merge_and_clean_data as
pure Lean functions over explicit server-response models and file states,
and prove theorems settling the behavioural claims about them.
-/

/-! ## Network listing: list_umbrella_networks, script.py lines 76-133 -/

/-- A JSON network object returned by the inventory endpoint; the fields
name and ipAddress may be absent (none). -/
structure NetJson where
  name : Option String
  ipAddress : Option String
deriving DecidableEq

/-- A normalized network record as accumulated by the fetch loop. -/
structure NetRec where
  networkName : String
  ipAddress : String
deriving DecidableEq

/-- Embeds the dict built at script.py lines 101-107: a missing field is
replaced by the literal "N/A". -/
def normalizeNetwork (j : NetJson) : NetRec :=
  { networkName := j.name.getD "N/A", ipAddress := j.ipAddress.getD "N/A" }

/-- One HTTP response of the networks endpoint: a 200 with a JSON body, a
429, or a raised transport error (including raise_for_status failures on
other error statuses, script.py lines 93-98 and 124-126). -/
inductive NetResp where
  | ok (body : List NetJson)
  | tooMany
  | transportErr
deriving DecidableEq

/-- Result of a terminating run of the fetch loop: the accumulated
records, the page number sent with each request in request order, and the
sleep delays invoked, in tenths of a second (a 429 sleeps 50, the
inter-page pacing sleeps 5; script.py lines 95 and 122). -/
structure FetchResult where
  records : List NetRec
  trace : List Nat
  delays : List Nat
deriving DecidableEq

/-- The server model: request number i (0-based) is answered by respond i.
Consuming one request shifts the model by one. -/
def shiftNetResp (respond : Nat → NetResp) : Nat → NetResp :=
  fun i => respond (i + 1)

/-- The while-loop of list_umbrella_networks (script.py lines 86-126),
fuel-bounded: none means the fuel ran out before the loop terminated. On
429 the loop sleeps and retries the same page; on success it appends the
normalized records and stops when the page is short or the running total
has reached the cap, otherwise advances the page after a pacing sleep; a
transport error stops the loop with the records accumulated so far. -/
def listNetworksGo (perPage maxRecords : Nat) :
    Nat → (Nat → NetResp) → List NetRec → Nat → Nat → List Nat → List Nat → Option FetchResult
  | 0, _, _, _, _, _, _ => none
  | fuel + 1, respond, acc, total, page, trace, delays =>
    match respond 0 with
    | NetResp.tooMany =>
        listNetworksGo perPage maxRecords fuel (shiftNetResp respond) acc total page
          (trace ++ [page]) (delays ++ [50])
    | NetResp.transportErr =>
        some { records := acc, trace := trace ++ [page], delays := delays }
    | NetResp.ok body =>
        if body.length < perPage ∨ maxRecords ≤ total + body.length then
          some { records := acc ++ body.map normalizeNetwork, trace := trace ++ [page],
                 delays := delays }
        else
          listNetworksGo perPage maxRecords fuel (shiftNetResp respond)
            (acc ++ body.map normalizeNetwork) (total + body.length) (page + 1)
            (trace ++ [page]) (delays ++ [5])

/-- list_umbrella_networks run against the server model respond, starting
at page 1 with an empty accumulator (the CSV export at lines 128-133 is
modelled separately by export_to_csv). -/
def list_umbrella_networks (respond : Nat → NetResp) (fuel perPage maxRecords : Nat) :
    Option FetchResult :=
  listNetworksGo perPage maxRecords fuel respond [] 0 1 [] []

/-- A page of n placeholder network objects. -/
def mkPage (n : Nat) : List NetJson :=
  List.replicate n { name := some "net", ipAddress := some "10.0.0.1" }

/-- A server that answers every request successfully, request i receiving
a page of sizes[i] records (and an empty page once sizes is exhausted). -/
def okResponder (sizes : List Nat) : Nat → NetResp :=
  fun i => NetResp.ok (mkPage (sizes.getD i 0))

/-- A server answering 429 to the first n requests and 200 with the given
body afterwards. -/
def resp429 (n : Nat) (body : List NetJson) : Nat → NetResp :=
  fun i => if i < n then NetResp.tooMany else NetResp.ok body

/-- Spec-side stop rule for successful pages: the number of requests the
fetcher makes per the words of the spec, stopping at the first page that
returns fewer records than the page size or at which the running total
reaches the cap (one further empty-page request if the sizes run out). -/
def specStops (perPage maxRecords : Nat) : List Nat → Nat → Nat
  | [], _ => 1
  | s :: rest, total =>
    if s < perPage ∨ maxRecords ≤ total + s then 1
    else specStops perPage maxRecords rest (total + s) + 1

theorem listNetworksGo_step_tooMany (perPage maxRecords fuel : Nat) (respond : Nat → NetResp)
    (acc : List NetRec) (total page : Nat) (trace delays : List Nat)
    (h : respond 0 = NetResp.tooMany) :
    listNetworksGo perPage maxRecords (fuel + 1) respond acc total page trace delays =
      listNetworksGo perPage maxRecords fuel (shiftNetResp respond) acc total page
        (trace ++ [page]) (delays ++ [50]) := by
  show (match respond 0 with
    | NetResp.tooMany =>
        listNetworksGo perPage maxRecords fuel (shiftNetResp respond) acc total page
          (trace ++ [page]) (delays ++ [50])
    | NetResp.transportErr =>
        some { records := acc, trace := trace ++ [page], delays := delays }
    | NetResp.ok body =>
        if body.length < perPage ∨ maxRecords ≤ total + body.length then
          some { records := acc ++ body.map normalizeNetwork, trace := trace ++ [page],
                 delays := delays }
        else
          listNetworksGo perPage maxRecords fuel (shiftNetResp respond)
            (acc ++ body.map normalizeNetwork) (total + body.length) (page + 1)
            (trace ++ [page]) (delays ++ [5])) = _
  rw [h]

theorem listNetworksGo_step_ok (perPage maxRecords fuel : Nat) (respond : Nat → NetResp)
    (acc : List NetRec) (total page : Nat) (trace delays : List Nat) (body : List NetJson)
    (h : respond 0 = NetResp.ok body) :
    listNetworksGo perPage maxRecords (fuel + 1) respond acc total page trace delays =
      (if body.length < perPage ∨ maxRecords ≤ total + body.length then
        some { records := acc ++ body.map normalizeNetwork, trace := trace ++ [page],
               delays := delays }
      else
        listNetworksGo perPage maxRecords fuel (shiftNetResp respond)
          (acc ++ body.map normalizeNetwork) (total + body.length) (page + 1)
          (trace ++ [page]) (delays ++ [5])) := by
  show (match respond 0 with
    | NetResp.tooMany =>
        listNetworksGo perPage maxRecords fuel (shiftNetResp respond) acc total page
          (trace ++ [page]) (delays ++ [50])
    | NetResp.transportErr =>
        some { records := acc, trace := trace ++ [page], delays := delays }
    | NetResp.ok body =>
        if body.length < perPage ∨ maxRecords ≤ total + body.length then
          some { records := acc ++ body.map normalizeNetwork, trace := trace ++ [page],
                 delays := delays }
        else
          listNetworksGo perPage maxRecords fuel (shiftNetResp respond)
            (acc ++ body.map normalizeNetwork) (total + body.length) (page + 1)
            (trace ++ [page]) (delays ++ [5])) = _
  rw [h]

theorem shiftNetResp_okResponder (s : Nat) (rest : List Nat) :
    shiftNetResp (okResponder (s :: rest)) = okResponder rest := by
  funext i
  simp [shiftNetResp, okResponder]

theorem shiftNetResp_resp429 (n : Nat) (body : List NetJson) :
    shiftNetResp (resp429 (n + 1) body) = resp429 n body := by
  funext i
  simp [shiftNetResp, resp429, Nat.add_lt_add_iff_right]

theorem listNetworksGo_okResponder (perPage maxRecords : Nat) (hp : 0 < perPage) :
    ∀ (sizes : List Nat) (acc : List NetRec) (total page : Nat) (trace delays : List Nat),
    (listNetworksGo perPage maxRecords (sizes.length + 1) (okResponder sizes)
        acc total page trace delays).map (fun r => (r.trace.length, r.records.length)) =
      some (trace.length + specStops perPage maxRecords sizes total,
        acc.length + (sizes.take (specStops perPage maxRecords sizes total)).sum) := by
  intro sizes
  induction sizes with
  | nil =>
    intro acc total page trace delays
    simp [listNetworksGo, okResponder, mkPage, specStops, hp]
  | cons s rest ih =>
    intro acc total page trace delays
    have h0 : okResponder (s :: rest) 0 = NetResp.ok (mkPage s) := by
      simp [okResponder]
    have hms : (mkPage s).length = s := by simp [mkPage]
    rw [show (s :: rest).length + 1 = (rest.length + 1) + 1 by simp]
    rw [listNetworksGo_step_ok perPage maxRecords (rest.length + 1) _ _ _ _ _ _ _ h0, hms]
    by_cases hc : s < perPage ∨ maxRecords ≤ total + s
    · rw [if_pos hc]
      simp [specStops, hc, mkPage]
    · rw [if_neg hc, shiftNetResp_okResponder, ih]
      simp [specStops, hc, mkPage, Nat.add_assoc]
      omega

theorem listNetworksGo_resp429 (perPage maxRecords : Nat) (body : List NetJson)
    (hb : body.length < perPage) :
    ∀ (n : Nat) (acc : List NetRec) (total page : Nat) (trace delays : List Nat),
    listNetworksGo perPage maxRecords (n + 1) (resp429 n body) acc total page trace delays =
      some { records := acc ++ body.map normalizeNetwork,
             trace := trace ++ List.replicate (n + 1) page,
             delays := delays ++ List.replicate n 50 } := by
  intro n
  induction n with
  | zero =>
    intro acc total page trace delays
    simp [listNetworksGo, resp429, hb]
  | succ n ih =>
    intro acc total page trace delays
    have h0 : resp429 (n + 1) body 0 = NetResp.tooMany := by simp [resp429]
    rw [listNetworksGo_step_tooMany perPage maxRecords (n + 1) _ _ _ _ _ _ h0]
    rw [shiftNetResp_resp429, ih]
    simp [List.replicate_succ, List.append_assoc]

/-- Claim C4: against a server of successful pages, the fetcher stops
exactly at the first page that returns fewer records than the page size
or at which the running total reaches the record cap: the number of
requests it issues equals the spec-side stop count specStops, and the
accumulated records are exactly the records of the pages up to that
point (in particular pages of sizes 100, 100, 47 with perPage 100 give
247 records in 3 requests, see the witness). -/
theorem list_umbrella_networks_stop_condition (sizes : List Nat) (perPage maxRecords : Nat)
    (hp : 0 < perPage) :
    (list_umbrella_networks (okResponder sizes) (sizes.length + 1) perPage maxRecords).map
      (fun r => (r.trace.length, r.records.length)) =
    some (specStops perPage maxRecords sizes 0,
      (sizes.take (specStops perPage maxRecords sizes 0)).sum) := by
  have h := listNetworksGo_okResponder perPage maxRecords hp sizes [] 0 1 [] []
  simpa [list_umbrella_networks] using h

/-- Witness for C4 at the concrete scenario of the claim: pages of sizes
100, 100 and 47 with perPage 100 and cap 10000 yield exactly 3 requests
and exactly 247 accumulated records. -/
theorem list_umbrella_networks_stop_condition_witness :
    0 < 100 ∧
    (list_umbrella_networks (okResponder [100, 100, 47]) 4 100 10000).map
      (fun r => (r.trace.length, r.records.length)) = some (3, 247) := by
  refine ⟨by decide, ?_⟩
  exact (list_umbrella_networks_stop_condition [100, 100, 47] 100 10000 (by decide)).trans
    (by decide)

/-- Claim C6: on 429 the fetcher sleeps the fixed 5 second delay (50
tenths) and re-requests the same page with no retry bound: for every n,
a server answering 429 to the first n requests and then succeeding with
a short body results in n + 1 requests all for page 1, exactly n delay
invocations of 50 tenths of a second, and the records of the successful
response only. -/
theorem list_umbrella_networks_rate_limit_retry (n : Nat) (body : List NetJson)
    (perPage maxRecords : Nat) (hb : body.length < perPage) :
    list_umbrella_networks (resp429 n body) (n + 1) perPage maxRecords =
      some { records := body.map normalizeNetwork,
             trace := List.replicate (n + 1) 1,
             delays := List.replicate n 50 } := by
  have h := listNetworksGo_resp429 perPage maxRecords body hb n [] 0 1 [] []
  simpa [list_umbrella_networks] using h

/-- Witness for C6 at the concrete scenario of the claim: 429, 429, then
200 with 47 records gives exactly 3 requests, all for page 1, two delay
invocations, and only the records of the successful response. -/
theorem list_umbrella_networks_rate_limit_retry_witness :
    (mkPage 47).length < 100 ∧
    list_umbrella_networks (resp429 2 (mkPage 47)) 3 100 10000 =
      some { records := (mkPage 47).map normalizeNetwork,
             trace := [1, 1, 1], delays := [50, 50] } := by
  refine ⟨by decide, ?_⟩
  exact list_umbrella_networks_rate_limit_retry 2 (mkPage 47) 100 10000 (by decide)

/-- Claim C5: the record cap is enforced after appending a fetched page,
not before requesting it: with maxRecords 150 and full pages of 100, the
fetcher stops after the second page, having issued exactly 2 requests and
accumulated exactly 200 records. -/
theorem list_umbrella_networks_cap_post_fetch :
    (list_umbrella_networks (okResponder [100, 100, 100]) 4 100 150).map
      (fun r => (r.records.length, r.trace)) = some (200, [1, 2]) := by
  rfl

/-! ## Set-difference filter: compare_and_filter_networks, script.py lines 213-235 -/

/-- The loop at script.py lines 223-228: walk the network rows in input
order and append those whose Network Name is not among the active
identity labels. -/
def compareGo (labels : List String) : List NetRec → List NetRec → List NetRec
  | [], acc => acc
  | r :: rest, acc =>
    if labels.contains r.networkName then compareGo labels rest acc
    else compareGo labels rest (acc ++ [r])

/-- compare_and_filter_networks: the inactive networks computed from the
network rows and the set of active identity labels (the CSV reads and the
export at lines 214-235 are I/O around this computation). -/
def compare_and_filter_networks (networks : List NetRec) (labels : List String) : List NetRec :=
  compareGo labels networks []

theorem compareGo_eq (labels : List String) :
    ∀ (l : List NetRec) (acc : List NetRec),
    compareGo labels l acc = acc ++ l.filter (fun r => !(labels.contains r.networkName)) := by
  intro l
  induction l with
  | nil =>
    intro acc
    simp [compareGo]
  | cons r rest ih =>
    intro acc
    by_cases hm : r.networkName ∈ labels <;>
      simp [compareGo, hm, ih, List.filter_cons, List.append_assoc]

/-- Claim C3: the set-difference filter outputs exactly the network
records whose name is not a member of the label set, by exact string
equality, preserving the input order; in particular networks A, B, C with
labels containing only B give A, C in that order, and a lowercase b is
not matched by an uppercase label B. -/
theorem compare_and_filter_networks_spec (networks : List NetRec) (labels : List String) :
    compare_and_filter_networks networks labels =
      networks.filter (fun r => !(labels.contains r.networkName)) ∧
    (∀ r : NetRec, r ∈ compare_and_filter_networks networks labels ↔
      (r ∈ networks ∧ r.networkName ∉ labels)) ∧
    List.Sublist (compare_and_filter_networks networks labels) networks ∧
    compare_and_filter_networks
      [{ networkName := "A", ipAddress := "1" }, { networkName := "B", ipAddress := "2" },
       { networkName := "C", ipAddress := "3" }] ["B"] =
      [{ networkName := "A", ipAddress := "1" }, { networkName := "C", ipAddress := "3" }] ∧
    compare_and_filter_networks [{ networkName := "b", ipAddress := "1" }] ["B"] =
      [{ networkName := "b", ipAddress := "1" }] := by
  have h1 : compare_and_filter_networks networks labels =
      networks.filter (fun r => !(labels.contains r.networkName)) := by
    simp [compare_and_filter_networks, compareGo_eq]
  refine ⟨h1, ?_, ?_, ?_, ?_⟩
  · intro r
    rw [h1]
    simp [List.mem_filter]
  · rw [h1]
    exact List.filter_sublist _
  · decide
  · decide

/-- Claim C9: a network object with a missing name or ipAddress field is
kept, with the missing field replaced by the literal "N/A"; a nameless
network therefore takes part in the set-difference under the name "N/A",
surviving it exactly when "N/A" is not an active identity label. -/
theorem normalize_missing_fields (j : NetJson) (labels : List String) (h : j.name = none) :
    (normalizeNetwork j).networkName = "N/A" ∧
    (∀ j2 : NetJson, j2.ipAddress = none → (normalizeNetwork j2).ipAddress = "N/A") ∧
    list_umbrella_networks (fun _ => NetResp.ok [j]) 1 100 10000 =
      some { records := [normalizeNetwork j], trace := [1], delays := [] } ∧
    compare_and_filter_networks [normalizeNetwork j] labels =
      (if labels.contains "N/A" then [] else [normalizeNetwork j]) := by
  have hn : (normalizeNetwork j).networkName = "N/A" := by
    simp [normalizeNetwork, h]
  refine ⟨hn, ?_, ?_, ?_⟩
  · intro j2 h2
    simp [normalizeNetwork, h2]
  · have hstep := listNetworksGo_step_ok 100 10000 0 (fun _ => NetResp.ok [j])
      [] 0 1 [] [] [j] rfl
    rw [list_umbrella_networks, hstep, if_pos (Or.inl (show [j].length < 100 by simp))]
    simp
  · simp only [compare_and_filter_networks, compareGo, hn]
    cases hc : labels.contains "N/A" <;> simp [compareGo, hc]

/-- Witness for C9 at the concrete input with both fields missing and the
label set containing "N/A". -/
theorem normalize_missing_fields_witness :
    ((({ name := none, ipAddress := none } : NetJson)).name = none) ∧
    ((normalizeNetwork { name := none, ipAddress := none }).networkName = "N/A" ∧
    (∀ j2 : NetJson, j2.ipAddress = none → (normalizeNetwork j2).ipAddress = "N/A") ∧
    list_umbrella_networks (fun _ => NetResp.ok [{ name := none, ipAddress := none }]) 1 100 10000 =
      some { records := [normalizeNetwork { name := none, ipAddress := none }],
             trace := [1], delays := [] } ∧
    compare_and_filter_networks [normalizeNetwork { name := none, ipAddress := none }] ["N/A"] =
      (if List.contains ["N/A"] "N/A" then [] else
        [normalizeNetwork { name := none, ipAddress := none }])) :=
  ⟨rfl, normalize_missing_fields { name := none, ipAddress := none } ["N/A"] rfl⟩

/-! ## Tabular exporter: export_to_csv, script.py lines 195-210 -/

/-- A CSV file on disk: a header row and the data rows below it. -/
structure CsvFile where
  header : List String
  rows : List (List String)
deriving DecidableEq

/-- A record is an association list of column name to value in insertion
order, as a Python dict row is. -/
def csvLookup (row : List (String × String)) (field : String) : String :=
  match row.lookup field with
  | some v => v
  | none => ""

/-- export_to_csv (script.py lines 195-210) as a function from the data
and the previous state of the destination file to the new file state and
whether the empty-input warning was logged. Opening the file in mode "w"
at line 197 creates or truncates it before the emptiness check at line
198, so the resulting file state never depends on the previous one: an
empty input leaves behind an empty file, a non-empty input a header row
derived from the first record and one line per record. -/
def export_to_csv (data : List (List (String × String))) (_prevFile : Option CsvFile) :
    Option CsvFile × Bool :=
  match data with
  | [] => (some { header := [], rows := [] }, true)
  | first :: _ =>
    (some { header := first.map Prod.fst,
            rows := data.map (fun row => (first.map Prod.fst).map (csvLookup row)) }, false)

/-- Counterexample to claim C2 as stated: with an empty record sequence
the exporter does create a missing destination file, and does clear a
non-empty existing one. -/
theorem export_to_csv_empty_creates_file :
    (export_to_csv [] none).1 ≠ none ∧
    (export_to_csv [] (some { header := ["LSP"], rows := [["L1"]] })).1 ≠
      some { header := ["LSP"], rows := [["L1"]] } := by
  decide

/-- Claim C2 amended: with an empty record sequence the exporter logs the
warning and writes neither a header nor any row, but since the file is
opened in write mode before the emptiness check, the destination becomes
an empty file regardless of its previous state. -/
theorem export_to_csv_empty_truncates (prevFile : Option CsvFile) :
    export_to_csv [] prevFile = (some { header := [], rows := [] }, true) := rfl

/-! ## Ticketing table fetcher: fetch_snow_data, script.py lines 238-263 -/

/-- A ServiceNow cmn_location row restricted to the two required columns;
a missing value is none (the dropped non-required columns are not
modelled since line 253 projects them away first). -/
structure SnowJson where
  u_marsha : Option String
  u_lsp : Option String
deriving DecidableEq

/-- Projection to the required columns, line 253. -/
def requiredProjection (rows : List SnowJson) : List (Option String × Option String) :=
  rows.map (fun r => (r.u_marsha, r.u_lsp))

/-- dropna on the two required columns, lines 254 and 256. -/
def dropnaRequired (rows : List (Option String × Option String)) :
    List (Option String × Option String) :=
  rows.filter (fun p => p.1.isSome && p.2.isSome)

/-- The replace of an empty string by NA, line 255. -/
def blankToNA (v : Option String) : Option String :=
  if v = some "" then none else v

/-- fetch_snow_data post-processing (script.py lines 250-258): project to
u_marsha and u_lsp, drop null rows, turn empty strings into NA and drop
again, then drop rows whose u_lsp is the literal "Other". -/
def fetch_snow_data (rows : List SnowJson) : List (Option String × Option String) :=
  let step1 := dropnaRequired (requiredProjection rows)
  let step2 := dropnaRequired (step1.map (fun p => (blankToNA p.1, blankToNA p.2)))
  step2.filter (fun p => decide (p.2 ≠ some "Other"))

/-- Spec-side keep rule of claim C8: a row is kept iff both values are
present and non-empty and u_lsp is not the literal "Other". -/
def snowKeep (r : SnowJson) : Bool :=
  r.u_marsha.isSome && r.u_lsp.isSome && decide (r.u_marsha ≠ some "") &&
    decide (r.u_lsp ≠ some "") && decide (r.u_lsp ≠ some "Other")

/-- Claim C8: the ticketing fetcher keeps exactly the two columns
u_marsha and u_lsp, drops precisely the rows with a null or empty value
in either or with u_lsp equal to "Other", and keeps all remaining rows
with their values unchanged. -/
theorem fetch_snow_data_spec (rows : List SnowJson) :
    fetch_snow_data rows = (rows.filter snowKeep).map (fun r => (r.u_marsha, r.u_lsp)) := by
  induction rows with
  | nil => rfl
  | cons r rest ih =>
    simp only [fetch_snow_data, requiredProjection, dropnaRequired, List.map_cons,
      List.filter_cons] at ih ⊢
    obtain ⟨m, l⟩ := r
    cases m with
    | none => simpa [snowKeep] using ih
    | some a =>
      cases l with
      | none => simpa [snowKeep] using ih
      | some b =>
        by_cases ha : a = ""
        · simpa [snowKeep, blankToNA, ha] using ih
        · by_cases hb : b = ""
          · simpa [snowKeep, blankToNA, ha, hb] using ih
          · by_cases hob : b = "Other"
            · simpa [snowKeep, blankToNA, ha, hb, hob] using ih
            · simpa [snowKeep, blankToNA, ha, hb, hob] using ih

/-! ## Final merge: merge_and_clean_data, script.py lines 357-412 -/

/-- A row of Inactive_Network_LSP.csv as read at line 359. The join key
u_lsp is converted to str at line 376 and is therefore never NaN. -/
structure Step5Row where
  networkName : Option String
  ipAddress : Option String
  u_marsha : Option String
  u_lsp : String
deriving DecidableEq

/-- A row of LSP_emails.csv as read at line 360; LSP is converted to str
at line 377 and the contact column may be missing. -/
structure ContactRow where
  lsp : String
  email : Option String
deriving DecidableEq

/-- A row of the outer merge at lines 380-382: every column of both
sides, each possibly NaN for rows with no partner on the other side. -/
structure MergedRow where
  networkName : Option String
  ipAddress : Option String
  u_marsha : Option String
  u_lsp : Option String
  contactLsp : Option String
  email : Option String
deriving DecidableEq

/-- The pandas outer merge on u_lsp = LSP: every left row paired with
each matching right row (or with NaN right columns when unmatched),
followed by the right rows that matched no left row, with NaN left
columns. -/
def mergeOuterLsp (left : List Step5Row) (right : List ContactRow) : List MergedRow :=
  (left.flatMap (fun l =>
    match right.filter (fun r => r.lsp == l.u_lsp) with
    | [] => [{ networkName := l.networkName, ipAddress := l.ipAddress,
               u_marsha := l.u_marsha, u_lsp := some l.u_lsp,
               contactLsp := none, email := none }]
    | ms => ms.map (fun r =>
        { networkName := l.networkName, ipAddress := l.ipAddress,
          u_marsha := l.u_marsha, u_lsp := some l.u_lsp,
          contactLsp := some r.lsp, email := r.email }))) ++
  ((right.filter (fun r => left.all (fun l => !(r.lsp == l.u_lsp)))).map (fun r =>
    { networkName := none, ipAddress := none, u_marsha := none, u_lsp := none,
      contactLsp := some r.lsp, email := r.email }))

/-- A merged row with no NaN in any column. -/
def rowComplete (m : MergedRow) : Bool :=
  m.networkName.isSome && m.ipAddress.isSome && m.u_marsha.isSome &&
    m.u_lsp.isSome && m.contactLsp.isSome && m.email.isSome

/-- The dropna with no subset at line 385: keep only rows with a value in
every column. -/
def dropnaAll (rows : List MergedRow) : List MergedRow :=
  rows.filter rowComplete

/-- The pandas elementwise comparison of line 399: NaN compares unequal
to everything, including NaN. -/
def optCmpEq (a b : Option String) : Bool :=
  match a, b with
  | some x, some y => x == y
  | _, _ => false

/-- The Series.equals check of line 389: values equal row-for-row, with
NaN equal to NaN. -/
def dropMarshaFlag (rows : List MergedRow) : Bool :=
  rows.all (fun m => m.u_marsha == m.networkName)

/-- The check of lines 398-400: both columns non-null in every row and
elementwise equal in every row. -/
def dropLspFlag (rows : List MergedRow) : Bool :=
  rows.all (fun m => m.u_lsp.isSome && m.contactLsp.isSome) &&
    rows.all (fun m => optCmpEq m.u_lsp m.contactLsp)

/-- The outcome of merge_and_clean_data: the retained rows and which of
the two candidate duplicate columns survive into the exported CSV. -/
structure CleanResult where
  rows : List MergedRow
  hasMarsha : Bool
  hasULsp : Bool
deriving DecidableEq

/-- merge_and_clean_data (script.py lines 357-412): outer-merge the
Inactive_Network_LSP rows with the contact rows on u_lsp = LSP, drop all
rows containing any NaN, then drop the u_marsha column iff it equals
Network Name row-for-row and the u_lsp column iff u_lsp and LSP are both
non-null and equal in every row. -/
def merge_and_clean_data (left : List Step5Row) (right : List ContactRow) : CleanResult :=
  let kept := dropnaAll (mergeOuterLsp left right)
  { rows := kept, hasMarsha := !(dropMarshaFlag kept), hasULsp := !(dropLspFlag kept) }

theorem optPair_iff (a b : Option String) :
    ((a.isSome && b.isSome) = true ∧ optCmpEq a b = true) ↔ ∃ v, a = some v ∧ b = some v := by
  cases a <;> cases b <;> simp [optCmpEq]
  exact eq_comm

/-- Claim C7: in the final merge a candidate duplicate column is dropped
exactly when it is value-identical to its counterpart: u_marsha is
dropped iff its value equals the Network Name value in every retained
row, and u_lsp is dropped iff u_lsp and LSP are both non-null and equal
in every retained row; otherwise the column is kept in the export. -/
theorem merge_and_clean_column_dedup (left : List Step5Row) (right : List ContactRow) :
    ((merge_and_clean_data left right).hasMarsha = false ↔
      ∀ m ∈ (merge_and_clean_data left right).rows, m.u_marsha = m.networkName) ∧
    ((merge_and_clean_data left right).hasULsp = false ↔
      ∀ m ∈ (merge_and_clean_data left right).rows,
        ∃ v, m.u_lsp = some v ∧ m.contactLsp = some v) := by
  constructor
  · simp [merge_and_clean_data, dropMarshaFlag, List.all_eq_true]
  · show (!(dropLspFlag (dropnaAll (mergeOuterLsp left right)))) = false ↔ _
    rw [Bool.not_eq_false', dropLspFlag, Bool.and_eq_true, List.all_eq_true, List.all_eq_true]
    constructor
    · rintro ⟨h1, h2⟩ m hm
      exact (optPair_iff m.u_lsp m.contactLsp).mp ⟨h1 m hm, h2 m hm⟩
    · intro h
      constructor
      · intro m hm
        exact ((optPair_iff m.u_lsp m.contactLsp).mpr (h m hm)).1
      · intro m hm
        exact ((optPair_iff m.u_lsp m.contactLsp).mpr (h m hm)).2

/-- Concrete left row for the C1 counterexample: a fully populated
inactive-network row whose LSP code is L1. -/
def c1Left : Step5Row :=
  { networkName := some "MARSHA1", ipAddress := some "10.0.0.1",
    u_marsha := some "MARSHA1", u_lsp := "L1" }

/-- Concrete contact row for the C1 counterexample: LSP code L1 with a
missing contact value. -/
def c1Right : ContactRow :=
  { lsp := "L1", email := none }

/-- Counterexample to claim C1 as stated: the outer join of c1Left with
c1Right has exactly one row, whose join key resolved on both sides, yet
the final output retains no rows, because the optional email column is
null and the dropna at line 385 has no subset. -/
theorem merge_and_clean_drops_resolved_key_row :
    (mergeOuterLsp [c1Left] [c1Right]).length = 1 ∧
    (mergeOuterLsp [c1Left] [c1Right]).all
      (fun m => m.u_lsp.isSome && m.contactLsp.isSome) = true ∧
    (merge_and_clean_data [c1Left] [c1Right]).rows = [] := by
  decide

/-- Claim C1 amended: after the second join, a row is retained iff every
one of its columns is non-null, so the rows removed are all rows with any
NaN column, not only those whose join key failed to resolve; a row with a
resolved key but a null optional column is removed as well. -/
theorem merge_and_clean_dropna_membership (left : List Step5Row) (right : List ContactRow)
    (m : MergedRow) :
    m ∈ (merge_and_clean_data left right).rows ↔
      (m ∈ mergeOuterLsp left right ∧ rowComplete m = true) := by
  simp [merge_and_clean_data, dropnaAll, List.mem_filter]

/-! ## Top identities: fetch_top_identities, script.py lines 136-192 -/

/-- One identity object of the data array; the label may be missing. -/
structure IdJson where
  label : Option String
deriving DecidableEq

/-- One HTTP outcome of the top-identities endpoint: a 200 with a data
array, any non-200 status (the code only compares status_code to 200, so
429 is treated like any other non-200), or a raised transport
exception. -/
inductive IdResp where
  | ok (body : List IdJson)
  | httpErr (status : Nat)
  | raise
deriving DecidableEq

/-- Outcome of fetch_top_identities: the file written (none when no write
happened), the number of requests made, and the number of retry sleeps. -/
structure TopIdResult where
  file : Option (List String)
  requests : Nat
  sleeps : Nat
deriving DecidableEq

/-- The label written per identity at line 180: a missing label becomes
"N/A". -/
def idLabel (j : IdJson) : String :=
  j.label.getD "N/A"

/-- The CSV write at lines 171-183: performed only when the accumulated
list is non-empty, one line per identity. -/
def writeIdentities (acc : List IdJson) : Option (List String) :=
  if acc.isEmpty then none else some (acc.map idLabel)

/-- The server model of the top-identities endpoint, shifted as requests
are consumed. -/
def shiftIdResp (respond : Nat → IdResp) : Nat → IdResp :=
  fun i => respond (i + 1)

/-- The inner while-loop at lines 143-168, fuel-bounded. Returns whether
an exception was raised, the accumulated identities, the next offset and
the number of requests consumed: a 200 with a non-empty data array
extends the accumulator and advances the offset by 5000; a 200 with an
empty array or any non-200 status breaks the loop normally; a transport
exception leaves the loop exceptionally. -/
def topIdInner (fuel : Nat) (respond : Nat → IdResp) (acc : List IdJson) (offset : Nat) :
    Option (Bool × List IdJson × Nat × Nat) :=
  match fuel with
  | 0 => none
  | fuel' + 1 =>
    match respond 0 with
    | IdResp.raise => some (true, acc, offset, 1)
    | IdResp.httpErr _ => some (false, acc, offset, 1)
    | IdResp.ok body =>
      if body.isEmpty then some (false, acc, offset, 1)
      else
        match topIdInner fuel' (shiftIdResp respond) (acc ++ body) (offset + 5000) with
        | none => none
        | some (r, a, o, c) => some (r, a, o, c + 1)

/-- The server model shifted by the number of requests already made. -/
def shiftIdRespBy (n : Nat) (respond : Nat → IdResp) : Nat → IdResp :=
  fun i => respond (i + n)

/-- The retry loop at lines 141-192, recursing on the attempts left out
of the fixed budget. A normal exit of the inner loop writes the CSV (if
anything was accumulated) and leaves the retry loop; an exception sleeps
the fixed delay and retries while attempts remain, keeping the
accumulator and offset, and after the last attempt gives up without
writing. -/
def topIdAttempts (innerFuel : Nat) :
    Nat → (Nat → IdResp) → List IdJson → Nat → Nat → Nat → Option TopIdResult
  | 0, _, _, _, reqs, sleeps => some { file := none, requests := reqs, sleeps := sleeps }
  | attemptsLeft + 1, respond, acc, offset, reqs, sleeps =>
    match topIdInner innerFuel respond acc offset with
    | none => none
    | some (raised, acc2, offset2, consumed) =>
      if raised then
        if 0 < attemptsLeft then
          topIdAttempts innerFuel attemptsLeft (shiftIdRespBy consumed respond) acc2 offset2
            (reqs + consumed) (sleeps + 1)
        else some { file := none, requests := reqs + consumed, sleeps := sleeps }
      else some { file := writeIdentities acc2, requests := reqs + consumed, sleeps := sleeps }

/-- fetch_top_identities with the given server model, inner-loop fuel and
retry budget (the script calls it with retries = 3). -/
def fetch_top_identities (respond : Nat → IdResp) (innerFuel retries : Nat) :
    Option TopIdResult :=
  topIdAttempts innerFuel retries respond [] 0 0 0

/-- A server returning the given non-empty pages one per request and the
given non-200 status afterwards. -/
def pagesThenErr (ps : List (List IdJson)) (status : Nat) : Nat → IdResp :=
  fun i => if i < ps.length then IdResp.ok (ps.getD i []) else IdResp.httpErr status

theorem shiftIdResp_pagesThenErr (p : List IdJson) (ps : List (List IdJson)) (status : Nat) :
    shiftIdResp (pagesThenErr (p :: ps) status) = pagesThenErr ps status := by
  funext i
  simp [shiftIdResp, pagesThenErr, Nat.add_lt_add_iff_right]

theorem topIdInner_step_ok (fuel : Nat) (respond : Nat → IdResp) (acc : List IdJson)
    (offset : Nat) (body : List IdJson) (h : respond 0 = IdResp.ok body) :
    topIdInner (fuel + 1) respond acc offset =
      (if body.isEmpty then some (false, acc, offset, 1)
      else
        match topIdInner fuel (shiftIdResp respond) (acc ++ body) (offset + 5000) with
        | none => none
        | some (r, a, o, c) => some (r, a, o, c + 1)) := by
  show (match respond 0 with
    | IdResp.raise => some (true, acc, offset, 1)
    | IdResp.httpErr _ => some (false, acc, offset, 1)
    | IdResp.ok body =>
      if body.isEmpty then some (false, acc, offset, 1)
      else
        match topIdInner fuel (shiftIdResp respond) (acc ++ body) (offset + 5000) with
        | none => none
        | some (r, a, o, c) => some (r, a, o, c + 1)) = _
  rw [h]

theorem topIdInner_pages (status : Nat) :
    ∀ (ps : List (List IdJson)), (∀ p ∈ ps, p ≠ []) →
    ∀ (acc : List IdJson) (offset : Nat),
    topIdInner (ps.length + 1) (pagesThenErr ps status) acc offset =
      some (false, acc ++ ps.flatten, offset + 5000 * ps.length, ps.length + 1) := by
  intro ps
  induction ps with
  | nil =>
    intro _ acc offset
    simp [topIdInner, pagesThenErr]
  | cons p rest ih =>
    intro hne acc offset
    have hp : p ≠ [] := hne p (by simp)
    have h0 : pagesThenErr (p :: rest) status 0 = IdResp.ok p := by
      simp [pagesThenErr]
    rw [show (p :: rest).length + 1 = (rest.length + 1) + 1 by simp]
    rw [topIdInner_step_ok (rest.length + 1) _ _ _ _ h0]
    rw [if_neg (by simpa using hp)]
    rw [shiftIdResp_pagesThenErr, ih (fun q hq => hne q (by simp [hq])) (acc ++ p) (offset + 5000)]
    simp [List.append_assoc, Nat.mul_succ]
    omega

theorem topIdAttempts_step (innerFuel attemptsLeft : Nat) (respond : Nat → IdResp)
    (acc : List IdJson) (offset reqs sleeps : Nat) (raised : Bool) (acc2 : List IdJson)
    (offset2 consumed : Nat)
    (h : topIdInner innerFuel respond acc offset = some (raised, acc2, offset2, consumed)) :
    topIdAttempts innerFuel (attemptsLeft + 1) respond acc offset reqs sleeps =
      (if raised then
        if 0 < attemptsLeft then
          topIdAttempts innerFuel attemptsLeft (shiftIdRespBy consumed respond) acc2 offset2
            (reqs + consumed) (sleeps + 1)
        else some { file := none, requests := reqs + consumed, sleeps := sleeps }
      else some { file := writeIdentities acc2, requests := reqs + consumed,
                  sleeps := sleeps }) := by
  show (match topIdInner innerFuel respond acc offset with
    | none => none
    | some (raised, acc2, offset2, consumed) =>
      if raised then
        if 0 < attemptsLeft then
          topIdAttempts innerFuel attemptsLeft (shiftIdRespBy consumed respond) acc2 offset2
            (reqs + consumed) (sleeps + 1)
        else some { file := none, requests := reqs + consumed, sleeps := sleeps }
      else some { file := writeIdentities acc2, requests := reqs + consumed,
                  sleeps := sleeps }) = _
  rw [h]

/-- Claim C10: a non-200 status from the top-identities endpoint
(including 429) stops the offset-paging loop immediately, with no retry
and no delay for that status, and the identities accumulated from the
earlier successful pages are still written; the bounded 3-attempt retry
with its 5-second sleeps applies only to raised transport exceptions,
which after 3 failed attempts leave no write and 2 sleeps. -/
theorem fetch_top_identities_http_error_stop (ps : List (List IdJson)) (status : Nat)
    (hne : ∀ p ∈ ps, p ≠ []) :
    fetch_top_identities (pagesThenErr ps status) (ps.length + 1) 3 =
      some { file := writeIdentities ps.flatten, requests := ps.length + 1, sleeps := 0 } ∧
    fetch_top_identities (fun _ => IdResp.raise) 1 3 =
      some { file := none, requests := 3, sleeps := 2 } := by
  constructor
  · have hin := topIdInner_pages status ps hne [] 0
    show topIdAttempts (ps.length + 1) 3 (pagesThenErr ps status) [] 0 0 0 = _
    rw [show (3 : Nat) = 2 + 1 from rfl]
    rw [topIdAttempts_step (ps.length + 1) 2 _ _ _ _ _ false ([] ++ ps.flatten)
      (0 + 5000 * ps.length) (ps.length + 1) hin]
    simp
  · rfl

/-- Concrete pages for the C10 witness: two successful single-identity
pages. -/
def c10Pages : List (List IdJson) :=
  [[{ label := some "a" }], [{ label := some "b" }]]

/-- Witness for C10 at the concrete scenario: two non-empty pages then a
429 give 3 requests, no sleeps and a file holding both labels, while a
server that always raises gives 3 attempts, 2 sleeps and no write. -/
theorem fetch_top_identities_http_error_stop_witness :
    (∀ p ∈ c10Pages, p ≠ []) ∧
    fetch_top_identities (pagesThenErr c10Pages 429) 3 3 =
      some { file := some ["a", "b"], requests := 3, sleeps := 0 } ∧
    fetch_top_identities (fun _ => IdResp.raise) 1 3 =
      some { file := none, requests := 3, sleeps := 2 } := by
  have hne : ∀ p ∈ c10Pages, p ≠ [] := by decide
  have h := fetch_top_identities_http_error_stop c10Pages 429 hne
  exact ⟨hne, h.1.trans (by decide), h.2⟩
